import Mathlib

/-!
Verification of the VM-to-Hack-assembly translator (`src/main.rs`) against its
natural-language specification. The Rust source is shallowly embedded below:
pure functions become Lean functions, `Result<T, E>` becomes `Except E T`,
`Option<&str>` becomes `Option String`, `usize`/`u8` become `Nat` (with the
wrap-around of 8-bit addition made explicit where it matters).

The assembly template files referenced by `include_str!` in the source are not
part of the repository snapshot under verification; each one is modelled from
the spec (see the `Modelled from the spec:` doc comments).  No verdict below
depends on the text of a template, only on which arguments the code feeds into
it and on whether a generator succeeds or fails.
-/

namespace VMTranslator

/-! ## Character-level string helpers

Lean4 core string functions such as `String.splitOn` use well-founded recursion
and do not reduce inside the kernel, so the Rust string primitives used by the
translator are embedded structurally over `List Char`. -/

/-- Embeds Rust `str::split(" ")` (a one-character separator): splitting `[]`
yields one empty part, exactly as Rust's `"".split(" ")` yields one `""` item. -/
def split_char (sep : Char) : List Char → List (List Char)
  | [] => [[]]
  | c :: cs =>
    let r := split_char sep cs
    if c = sep then [] :: r
    else (c :: r.headI) :: r.tail

/-- The tokens of a line, as Rust's `s.split(" ")` produces them. -/
def tokenize (s : String) : List String :=
  (split_char ' ' s.data).map (fun cs => ⟨cs⟩)

/-- Embeds Rust `x.split("//").next().unwrap()`: everything before the first
occurrence of `//` (the whole string when there is none). -/
def before_comment : List Char → List Char
  | [] => []
  | '/' :: '/' :: _ => []
  | c :: cs => c :: before_comment cs

/-- Embeds Rust `str::trim` (for the ASCII inputs of this program). -/
def trim_chars (cs : List Char) : List Char :=
  ((cs.dropWhile Char.isWhitespace).reverse.dropWhile Char.isWhitespace).reverse

/-- Embeds Rust `str::trim_end` (for the ASCII inputs of this program). -/
def trim_end (s : String) : String :=
  ⟨(s.data.reverse.dropWhile Char.isWhitespace).reverse⟩

/-- The decimal digit characters, used to embed Rust's `Display` for integers. -/
def digit_char (n : Nat) : Char :=
  match n with
  | 0 => '0'
  | 1 => '1'
  | 2 => '2'
  | 3 => '3'
  | 4 => '4'
  | 5 => '5'
  | 6 => '6'
  | 7 => '7'
  | 8 => '8'
  | _ => '9'

/-- Decimal digits of `n`, most significant first; the fuel argument makes the
recursion structural (`fuel > n` suffices, see `digits_val_nat_digits_aux`). -/
def nat_digits_aux : Nat → Nat → List Char
  | 0, _ => []
  | fuel + 1, n =>
    if n < 10 then [digit_char n]
    else nat_digits_aux fuel (n / 10) ++ [digit_char (n % 10)]

/-- Embeds Rust `usize::to_string` / `format!` of an integer: plain decimal. -/
def nat_repr (n : Nat) : String := ⟨nat_digits_aux (n + 1) n⟩

/-- Numeric value of a digit character. -/
def char_digit (c : Char) : Nat := c.toNat - 48

/-- Value of a most-significant-first digit list. -/
def digits_val (cs : List Char) : Nat :=
  cs.foldl (fun acc c => acc * 10 + char_digit c) 0

/-- Embeds Rust `str::parse::<uN>()` for an unsigned type with maximum value
`bound`: an optional leading `+`, then one or more decimal digits, value at
most `bound`; anything else is a parse error (`none`). -/
def parse_uint (bound : Nat) (s : String) : Option Nat :=
  let cs := match s.data with
    | '+' :: rest => rest
    | cs => cs
  if cs.isEmpty then none
  else if cs.all Char.isDigit then
    let n := digits_val cs
    if n ≤ bound then some n else none
  else none

/-- Rust `str::parse::<u8>()`. -/
def parse_u8 (s : String) : Option Nat := parse_uint 255 s

/-- Rust `str::parse::<usize>()` (64-bit target). -/
def parse_usize (s : String) : Option Nat := parse_uint 18446744073709551615 s

/-- Rust `Option::ok_or`: `some v` to `Except.ok v`, `none` to the given error. -/
def okOr {α : Type} (o : Option α) (e : String) : Except String α :=
  match o with
  | some v => Except.ok v
  | none => Except.error e

/-- `starts_with pat s`: `pat` is a prefix of `s` (Boolean, over char lists). -/
def starts_with : List Char → List Char → Bool
  | [], _ => true
  | _ :: _, [] => false
  | p :: ps, c :: cs => p == c && starts_with ps cs

/-- `has_sub pat s`: `pat` occurs as a contiguous sublist of `s`. -/
def has_sub (pat : List Char) : List Char → Bool
  | [] => starts_with pat []
  | c :: cs => starts_with pat (c :: cs) || has_sub pat cs

/-- `str_contains s t`: the text `t` occurs inside the string `s`. -/
def str_contains (s t : String) : Bool := has_sub t.data s.data

/-! ## The data model: `Instruction` (src/main.rs lines 5-48) -/

/-- A VM instruction, mirroring `struct Instruction` of the source field for
field (`&'a str` as `String`, `Option<&'a str>` as `Option String`). -/
structure Instruction where
  operation : String
  arg1 : Option String
  arg2 : Option String
  raw : String
  file : String
  id : Nat
  frame : Option String
deriving Repr, DecidableEq

/-- Embeds `Instruction::new`: splits the line on single spaces and takes the
first three tokens as operation, arg1, arg2 (Rust's `parts.next()` thrice). -/
def Instruction.new (s : String) (id : Nat) (file : String) :
    Except String Instruction :=
  let parts := tokenize s
  match parts.head? with
  | none => Except.error "Unable to parse empty line"
  | some op =>
    Except.ok { raw := s, operation := op, arg1 := parts.get? 1,
                arg2 := parts.get? 2, file := file, id := id, frame := none }

/-- Embeds `Instruction::set_frame` exactly as written, including the match on
the literal string `"operation"` and the search over the given (flattened,
cross-module) instruction list: the last instruction in list order whose
operation is `"function"` and whose (module-local) `id` is smaller. -/
def Instruction.set_frame (self : Instruction) (instructions : List Instruction) :
    Instruction :=
  let get_frame : Option String :=
    match self.operation with
    | "operation" => self.arg1
    | _ =>
      (((instructions.filter (fun x => x.operation == "function")).filter
            (fun x => decide (x.id < self.id))).getLast?).bind
        (fun x => x.arg1)
  { self with frame := get_frame }

/-- Embeds `parse_contents`: per line, drop everything from `//`, trim, and keep
the non-empty results.  (Rust's `str::lines` differs from splitting on `'\n'`
only by `\r` handling and a trailing empty line, both erased by trim+filter.) -/
def parse_contents (contents : String) : List String :=
  ((split_char '\n' contents.data).map
      (fun l => (⟨trim_chars (before_comment l)⟩ : String))).filter
    (fun x => !x.data.isEmpty)

/-! ## Memory-access generators (src/main.rs lines 60-170)

The `include_str!` template texts are not in the repository snapshot; each is
modelled from the spec's description of the corresponding addressing scheme.
Every placeholder of the real template is an argument of the Lean function, in
the positional order in which the source's `format!` call supplies it. -/

/-- Embeds `enum MemOpType`. -/
inductive MemOpType where
  | Push
  | Pop
deriving Repr, DecidableEq

/-- Embeds Rust `matches!(opt, MemOpType::Push)`. -/
def MemOpType.isPush : MemOpType → Bool
  | .Push => true
  | .Pop => false

/-- Modelled from the spec: `translations/push/segment.asm` is missing from the
snapshot.  Per §4.3 the segments argument/local/this/that are base-pointer
relative (effective address = pointer register + offset); the template computes
the value at that address into D (the shared push tail then stores D).
Placeholders in order: segment register name, offset text. -/
def push_segment_asm (segment v2 : String) : String :=
  "@" ++ segment ++ "\nD=M\n@" ++ v2 ++ "\nA=D+A\nD=M\n"

/-- Modelled from the spec: `translations/pop/segment_full.asm` is missing from
the snapshot.  Per §4.3, pop computes the effective address, pops the stack top
and stores it there.  Placeholders in order: segment register name, offset. -/
def pop_segment_full_asm (segment v2 : String) : String :=
  "@" ++ segment ++ "\nD=M\n@" ++ v2 ++ "\nD=D+A\n@R13\nM=D\n@SP\nAM=M-1\nD=M\n@R13\nA=M\nM=D\n"

/-- Modelled from the spec: `translations/push/direct.asm` is missing from the
snapshot.  It reads the named cell into D (the shared push tail stores D).
One placeholder: the symbol to read. -/
def push_direct_asm (arg : String) : String :=
  "@" ++ arg ++ "\nD=M\n"

/-- Modelled from the spec: `translations/pop/direct_full.asm` is missing from
the snapshot.  It pops the stack top into the named cell.  One placeholder. -/
def pop_direct_full_asm (arg : String) : String :=
  "@SP\nAM=M-1\nD=M\n@" ++ arg ++ "\nM=D\n"

/-- Modelled from the spec: `translations/push/constant.asm` is missing from
the snapshot.  It loads the literal into D.  One placeholder: the literal. -/
def push_constant_asm (v2 : String) : String :=
  "@" ++ v2 ++ "\nD=A\n"

/-- Modelled from the spec: `translations/push/main.asm` is missing from the
snapshot.  Shared push tail: store D at the stack top and increment SP. -/
def push_main_asm : String :=
  "@SP\nA=M\nM=D\n@SP\nM=M+1\n"

/-- Embeds `segment_fmt` (segments argument/local/this/that).  Note: `arg2` is
embedded verbatim into the template, with no numeric parsing. -/
def segment_fmt (opt : MemOpType) (instruction : Instruction) :
    Except String String := do
  let a1 ← okOr instruction.arg1 "Missing segment argument"
  let segment ← match a1 with
    | "argument" => Except.ok "ARG"
    | "local" => Except.ok "LCL"
    | "this" => Except.ok "THIS"
    | "that" => Except.ok "THAT"
    | a => Except.error ("Invalid segment argument '" ++ a ++ "'")
  let v2 ← okOr instruction.arg2 "Missing 2nd argument"
  match opt with
  | .Push => Except.ok (push_segment_asm segment v2)
  | .Pop => Except.ok (pop_segment_full_asm segment v2)

/-- Embeds `static_fmt`: the symbol is `<module>.<arg2>`, arg2 verbatim. -/
def static_fmt (opt : MemOpType) (instruction : Instruction) :
    Except String String := do
  let a2 ← okOr instruction.arg2 "Missing 2nd argument"
  let arg := instruction.file ++ "." ++ a2
  match opt with
  | .Push => Except.ok (push_direct_asm arg)
  | .Pop => Except.ok (pop_direct_full_asm arg)

/-- Embeds `temp_fmt`: arg2 is parsed as `u8` and mapped to register
`R(n + 5)`.  The addition is Rust `u8` addition, which wraps modulo 256 (the
source performs no range check beyond the `u8` parse). -/
def temp_fmt (opt : MemOpType) (instruction : Instruction) :
    Except String String := do
  let a2 ← okOr instruction.arg2 "Missing 2nd argument to temp segment"
  let n ← okOr (parse_u8 a2)
    ("Invalid 2nd argument '" ++ a2 ++ "' to temp segment")
  let arg := "R" ++ nat_repr ((n + 5) % 256)
  match opt with
  | .Push => Except.ok (push_direct_asm arg)
  | .Pop => Except.ok (pop_direct_full_asm arg)

/-- Embeds `pointer_fmt`: arg2 is parsed as `u8`; 0 selects THIS, 1 selects
THAT, anything else is an error. -/
def pointer_fmt (opt : MemOpType) (instruction : Instruction) :
    Except String String := do
  let a2 ← okOr instruction.arg2 "Missing 2nd argument to pointer segment"
  let n ← okOr (parse_u8 a2)
    ("Invalid 2nd argument '" ++ a2 ++ "' to pointer segment")
  let arg ← match n with
    | 0 => Except.ok "THIS"
    | 1 => Except.ok "THAT"
    | a => Except.error ("Invalid 2nd argument '" ++ nat_repr a ++ "' to pointer segment")
  match opt with
  | .Push => Except.ok (push_direct_asm arg)
  | .Pop => Except.ok (pop_direct_full_asm arg)

/-- Embeds `generate_memop`: dispatch on push/pop, then on the segment name.
The Rust arm `"constant" if matches!(opt, Push)` falls through to the catch-all
`Invalid segment argument` error when the operation is a pop. -/
def generate_memop (instruction : Instruction) : Except String String := do
  let opt ← match instruction.operation with
    | "push" => Except.ok MemOpType.Push
    | "pop" => Except.ok MemOpType.Pop
    | o => Except.error ("Invalid memmory operation instruction '" ++ o ++ "'")
  match instruction.arg1, instruction.arg2 with
  | some v1, some v2 => do
    let code ←
      if v1 == "constant" && opt.isPush then
        Except.ok (push_constant_asm v2)
      else if v1 == "argument" || v1 == "local" || v1 == "this" || v1 == "that" then
        segment_fmt opt instruction
      else if v1 == "static" then static_fmt opt instruction
      else if v1 == "temp" then temp_fmt opt instruction
      else if v1 == "pointer" then pointer_fmt opt instruction
      else Except.error ("Invalid segment argument '" ++ v1 ++ "'")
    match opt with
    | .Push => Except.ok (code ++ push_main_asm)
    | .Pop => Except.ok code
  | _, _ => Except.error "Memory operation instruction requires two parameters"

/-! ## Arithmetic, logical and comparison generators (lines 172-214) -/

/-- Modelled from the spec: `translations/2op/main.asm` is missing from the
snapshot.  Shared binary-operator head: pop the top operand into D and point A
at the new top (`topMinus1`); the caller appends the combining line. -/
def twoop_main_asm : String :=
  "@SP\nAM=M-1\nD=M\nA=A-1\n"

/-- Embeds `generate_2op` (add, sub, or, and), error message typo included. -/
def generate_2op (instruction : Instruction) : Except String String :=
  let g := fun (x : String) => Except.ok (twoop_main_asm ++ x ++ "\n")
  match instruction.operation with
  | "add" => g "M=M+D"
  | "sub" => g "M=M-D"
  | "or" => g "M=M|D"
  | "and" => g "M=M&D"
  | o => Except.error ("Invalid 2-operand arithemtic/logical instruction " ++ o)

/-- Embeds `generate_1op` (neg, not). -/
def generate_1op (instruction : Instruction) : Except String String :=
  let g := fun (x : String) => Except.ok ("@SP\nA=M-1\n" ++ x ++ "\n")
  match instruction.operation with
  | "neg" => g "M=-M"
  | "not" => g "M=!M"
  | o => Except.error ("Invalid 1-operand logical instruction '" ++ o ++ "'")

/-- Modelled from the spec: `translations/cmp/main.asm` is missing from the
snapshot.  Per §4.4 a comparison pops two cells, pushes all-ones (true) or
all-zeros (false), and expands to a conditional jump needing a true-branch
label and a landing label.  The source fills its six positional placeholders
with `(id, jump, id, id, id, id)` — the module-local index and the jump
mnemonic only — so the arguments here are one jump mnemonic and five copies of
the index. -/
def cmp_main_asm (a : Nat) (x : String) (b c d e : Nat) : String :=
  "@SP\nAM=M-1\nD=M\nA=A-1\nD=M-D\n@TRUE." ++ nat_repr a ++ "\nD;" ++ x ++
  "\nD=0\n@END." ++ nat_repr b ++ "\n0;JMP\n(TRUE." ++ nat_repr c ++
  ")\nD=-1\n@END." ++ nat_repr d ++ "\n0;JMP\n(END." ++ nat_repr e ++
  ")\n@SP\nA=M-1\nM=D\n"

/-- Embeds `generate_cmp` (eq, gt, lt): the template is fed the module-local
`instruction.id` five times and the jump mnemonic once; the module name is not
used. -/
def generate_cmp (instruction : Instruction) : Except String String :=
  let g := fun (x : String) =>
    Except.ok (cmp_main_asm instruction.id x instruction.id instruction.id
      instruction.id instruction.id)
  match instruction.operation with
  | "eq" => g "JEQ"
  | "gt" => g "JGT"
  | "lt" => g "JLT"
  | o => Except.error ("Invalid logical comparison instruction '" ++ o ++ "'")

/-! ## Branching generator (lines 216-230) -/

/-- Modelled from the spec: `translations/branching/if-goto.asm` is missing
from the snapshot.  Per §4.5, pop the top cell and jump when it is non-zero.
One placeholder: the qualified label. -/
def if_goto_asm (l : String) : String :=
  "@SP\nAM=M-1\nD=M\n@" ++ l ++ "\nD;JNE\n"

/-- Embeds `generate_branching` (label, goto, if-goto): the qualified label is
`<module>.<frame or global>$<arg1>`. -/
def generate_branching (instruction : Instruction) : Except String String := do
  let a1 ← okOr instruction.arg1 "Missing label name argument"
  let l_name := instruction.file ++ "." ++ instruction.frame.getD "global"
    ++ "$" ++ a1
  match instruction.operation with
  | "label" => Except.ok ("(" ++ l_name ++ ")\n")
  | "goto" => Except.ok ("@" ++ l_name ++ "\n0;JMP\n")
  | "if-goto" => Except.ok (if_goto_asm l_name)
  | o => Except.error ("Invalid branching instruction '" ++ o ++ "'")

/-! ## Function-linkage generator (lines 232-274) -/

/-- Modelled from the spec: `translations/functions/function.asm` is missing
from the snapshot.  Per §4.6, emit the function's entry label followed by
`nLocals` zero-initialized pushes.  Placeholders in the source's order:
function name, the local count, the repeated zero-init text. -/
def function_asm (name : String) (n_vars : Nat) (body : String) : String :=
  "(" ++ name ++ ")\n@" ++ nat_repr n_vars ++ "\nD=A\n@SP\nM=M+D\nA=M-D\n" ++ body

/-- Modelled from the spec: `translations/functions/call.asm` is missing from
the snapshot.  Per §4.6: push the return-address label value, push the saved
LCL/ARG/THIS/THAT, set ARG to `SP - (nArgs + 5)`, set LCL to SP, jump to the
callee, then define the return label.  Placeholders in the source's order:
return label, `nArgs + 5`, callee name, return label again. -/
def call_asm (ret : String) (off : Nat) (name : String) (ret2 : String) : String :=
  "@" ++ ret ++ "\nD=A\n@SP\nA=M\nM=D\n@SP\nM=M+1\n" ++
  "@LCL\nD=M\n@SP\nA=M\nM=D\n@SP\nM=M+1\n" ++
  "@ARG\nD=M\n@SP\nA=M\nM=D\n@SP\nM=M+1\n" ++
  "@THIS\nD=M\n@SP\nA=M\nM=D\n@SP\nM=M+1\n" ++
  "@THAT\nD=M\n@SP\nA=M\nM=D\n@SP\nM=M+1\n" ++
  "@SP\nD=M\n@" ++ nat_repr off ++ "\nD=D-A\n@ARG\nM=D\n" ++
  "@SP\nD=M\n@LCL\nM=D\n" ++
  "@" ++ name ++ "\n0;JMP\n(" ++ ret2 ++ ")\n"

/-- Modelled from the spec: `translations/functions/return.asm` is missing from
the snapshot.  Per §4.6: save the return value, restore the caller's saved
pointers, reposition SP, place the return value where the arguments began and
jump to the saved return address.  No placeholder. -/
def return_asm : String :=
  "@LCL\nD=M\n@R13\nM=D\n@5\nA=D-A\nD=M\n@R14\nM=D\n" ++
  "@SP\nAM=M-1\nD=M\n@ARG\nA=M\nM=D\n@ARG\nD=M+1\n@SP\nM=D\n" ++
  "@R13\nAM=M-1\nD=M\n@THAT\nM=D\n@R13\nAM=M-1\nD=M\n@THIS\nM=D\n" ++
  "@R13\nAM=M-1\nD=M\n@ARG\nM=D\n@R13\nAM=M-1\nD=M\n@LCL\nM=D\n" ++
  "@R14\nA=M\n0;JMP\n"

/-- Embeds Rust `str::repeat`. -/
def repeat_str (s : String) : Nat → String
  | 0 => ""
  | n + 1 => repeat_str s n ++ s

/-- Embeds the `return_label` let-binding of `generate_functions`'s `call`
branch verbatim: the resolved frame (or `"global"`), then `$ret.`, then the
module-local index. -/
def call_return_label (instruction : Instruction) : String :=
  instruction.frame.getD "global" ++ "$ret." ++ nat_repr instruction.id

/-- Embeds `generate_functions` (function, call, return).  The unbalanced
quote in the call branch's parse-error message is in the source. -/
def generate_functions (instruction : Instruction) : Except String String :=
  match instruction.operation with
  | "function" => do
    let arg1 ← okOr instruction.arg1 "Missing function name argument"
    let arg2 ← okOr instruction.arg2 "Missing n_vars argument for function"
    let n_vars ← okOr (parse_usize arg2)
      ("Invalid n_vars argument for function, '" ++ arg2 ++ "'")
    Except.ok (function_asm arg1 n_vars (repeat_str "M=0\nA=A+1\n" n_vars))
  | "call" => do
    let arg1 ← okOr instruction.arg1 "Missing function name argument to call"
    let arg2 ← okOr instruction.arg2 "Missing n_args argument for function call"
    let n_args ← okOr (parse_usize arg2)
      ("Invalid n_args argument for function call, '" ++ arg2)
    Except.ok (call_asm (call_return_label instruction) (n_args + 5) arg1
      (call_return_label instruction))
  | "return" => Except.ok return_asm
  | o => Except.error ("Invalid functions instruction '" ++ o ++ "'")

/-! ## Dispatch and diagnostics (lines 276-295) -/

/-- Embeds the `err_fmt` closure of `generate_code`: `#<id> '<raw>': <msg>`.
Note that the module name is not part of the diagnostic. -/
def err_fmt (instruction : Instruction) (x : String) : String :=
  "#" ++ nat_repr instruction.id ++ " '" ++ instruction.raw ++ "': " ++ x

/-- Embeds the `g` closure of `generate_code` (lifted to a top-level
definition): on success prepend the `// <raw>` echo comment and trim the
fragment's trailing whitespace; on failure wrap the message with `err_fmt`. -/
def gen_wrap (instruction : Instruction)
    (f : Instruction → Except String String) : Except String String :=
  match f instruction with
  | Except.ok v => Except.ok ("// " ++ instruction.raw ++ "\n" ++ trim_end v)
  | Except.error e => Except.error (err_fmt instruction e)

/-- Embeds `generate_code`: dispatch on the mnemonic to the category
generator, wrapped by `gen_wrap`. -/
def generate_code (instruction : Instruction) : Except String String :=
  match instruction.operation with
  | "push" | "pop" => gen_wrap instruction generate_memop
  | "add" | "sub" | "and" | "or" => gen_wrap instruction generate_2op
  | "neg" | "not" => gen_wrap instruction generate_1op
  | "eq" | "gt" | "lt" => gen_wrap instruction generate_cmp
  | "label" | "goto" | "if-goto" => gen_wrap instruction generate_branching
  | "function" | "call" | "return" => gen_wrap instruction generate_functions
  | o => Except.error (err_fmt instruction ("Invalid VM instruction '" ++ o ++ "'"))

/-! ## The translation orchestrator (lines 297-337) -/

/-- Modelled from the spec: `translations/init.asm` is missing from the
snapshot.  Per §4.6's bootstrap: initialize SP and invoke the entry function. -/
def init_asm : String :=
  "@256\nD=A\n@SP\nM=D\n@Sys.init\n0;JMP\n"

/-- Embeds the `.unwrap()` on `Instruction::new` inside `translate`.  `new`
never returns an error (`Instruction.new_ok`), so the fallback instruction is
unreachable; Rust would panic there. -/
def unwrap_new (s : String) (id : Nat) (file : String) : Instruction :=
  match Instruction.new s id file with
  | Except.ok v => v
  | Except.error _ =>
    { raw := s, operation := "", arg1 := none, arg2 := none, file := file,
      id := id, frame := none }

/-- The flattened instruction list `translate` builds: per module, the cleaned
lines enumerated from 0 and parsed. -/
def parsed_instructions (contents : List (String × String)) : List Instruction :=
  (contents.map (fun p =>
    ((parse_contents p.2).enum.map (fun q => unwrap_new q.2 q.1 p.1)))).flatten

/-- The instruction list after `translate`'s frame-resolution pass: every
instruction's `set_frame` is run against the full flattened list (the source's
`instructions_clone`). -/
def resolved_instructions (contents : List (String × String)) : List Instruction :=
  let instructions := parsed_instructions contents
  instructions.map (fun x => x.set_frame instructions)

/-- Embeds the fold of `translate` that separates generation results into the
success list and the diagnostic list, both in program order. -/
def split_results (l : List (Except String String)) :
    List String × List String :=
  l.foldl
    (fun acc item =>
      match item with
      | Except.ok v => (acc.1 ++ [v], acc.2)
      | Except.error v => (acc.1, acc.2 ++ [v]))
    ([], [])

/-- Embeds `translate`: parse every module, resolve frames, generate code for
every instruction, and either return all diagnostics or the bootstrap fragment
followed by every generated fragment. -/
def translate (contents : List (String × String)) : Except (List String) String :=
  let res := split_results ((resolved_instructions contents).map generate_code)
  match res.2 with
  | [] => Except.ok (init_asm ++
      res.1.foldl (fun acc item => acc ++ item ++ "\n\n") "")
  | _ => Except.error res.2

/-- The ok payload of a generation result (`""` for an error; used only where
every result is ok). -/
def okD : Except String String → String
  | Except.ok v => v
  | Except.error _ => ""

/-- The ok payload as an option. -/
def okOf : Except String String → Option String
  | Except.ok v => some v
  | Except.error _ => none

/-- The error payload as an option. -/
def errOf : Except String String → Option String
  | Except.error e => some e
  | Except.ok _ => none

/-- Whether a generation result is a success. -/
def is_ok : Except String String → Bool
  | Except.ok _ => true
  | Except.error _ => false

/-! ## General lemmas about the embedding -/

theorem split_char_ne_nil (sep : Char) (cs : List Char) :
    split_char sep cs ≠ [] := by
  cases cs with
  | nil => simp [split_char]
  | cons c cs =>
    simp only [split_char]
    split <;> simp

theorem tokenize_ne_nil (s : String) : tokenize s ≠ [] := by
  simp only [tokenize, ne_eq, List.map_eq_nil_iff]
  exact split_char_ne_nil ' ' s.data

/-- `Instruction::new` never fails and fills the fields from the first three
tokens; everything past the third token influences nothing but `raw`. -/
theorem Instruction.new_ok (s : String) (id : Nat) (file : String) :
    Instruction.new s id file = Except.ok
      { operation := (tokenize s).headI, arg1 := (tokenize s).get? 1,
        arg2 := (tokenize s).get? 2, raw := s, file := file, id := id,
        frame := none } := by
  unfold Instruction.new
  cases h : tokenize s with
  | nil => exact absurd h (tokenize_ne_nil s)
  | cons a l => simp [h]

theorem digit_char_toNat (d : Nat) (h : d < 10) :
    (digit_char d).toNat = 48 + d := by
  interval_cases d <;> rfl

theorem digits_val_append_digit (cs : List Char) (c : Char) :
    digits_val (cs ++ [c]) = digits_val cs * 10 + char_digit c := by
  simp [digits_val, List.foldl_append]

theorem digits_val_nat_digits_aux (fuel n : Nat) (h : n < fuel) :
    digits_val (nat_digits_aux fuel n) = n := by
  induction fuel generalizing n with
  | zero => omega
  | succ fuel ih =>
    unfold nat_digits_aux
    split
    · rename_i h10
      simp [digits_val, char_digit, digit_char_toNat n h10]
    · rename_i h10
      have hdiv : n / 10 < n := Nat.div_lt_self (by omega) (by omega)
      rw [digits_val_append_digit, ih (n / 10) (by omega)]
      have hmod : n % 10 < 10 := Nat.mod_lt _ (by omega)
      simp only [char_digit, digit_char_toNat _ hmod]
      omega

theorem nat_repr_inj (m n : Nat) (h : nat_repr m = nat_repr n) : m = n := by
  have hm := digits_val_nat_digits_aux (m + 1) m (Nat.lt_succ_self m)
  have hn := digits_val_nat_digits_aux (n + 1) n (Nat.lt_succ_self n)
  have hd : nat_digits_aux (m + 1) m = nat_digits_aux (n + 1) n :=
    congrArg String.data h
  rw [← hm, ← hn, hd]

theorem data_append (a b : String) : (a ++ b).data = a.data ++ b.data := by
  cases a; cases b; rfl

theorem split_results_foldl (l : List (Except String String))
    (a b : List String) :
    l.foldl
        (fun acc item =>
          match item with
          | Except.ok v => (acc.1 ++ [v], acc.2)
          | Except.error v => (acc.1, acc.2 ++ [v]))
        (a, b) =
      (a ++ l.filterMap okOf, b ++ l.filterMap errOf) := by
  induction l generalizing a b with
  | nil => simp
  | cons x xs ih =>
    cases x with
    | ok v => simp [List.filterMap_cons, okOf, errOf, ih]
    | error e => simp [List.filterMap_cons, okOf, errOf, ih]

theorem split_results_eq (l : List (Except String String)) :
    split_results l = (l.filterMap okOf, l.filterMap errOf) := by
  simpa [split_results] using split_results_foldl l [] []

theorem filterMap_okOf_of_errOf_nil (l : List (Except String String))
    (h : l.filterMap errOf = []) : l.filterMap okOf = l.map okD := by
  induction l with
  | nil => rfl
  | cons x xs ih =>
    cases x with
    | ok v =>
      simp only [List.filterMap_cons, errOf] at h
      simp [List.filterMap_cons, okOf, okD, ih h]
    | error e => simp [List.filterMap_cons, errOf] at h

theorem gen_wrap_ok_shape (i : Instruction)
    (f : Instruction → Except String String) (v : String)
    (h : gen_wrap i f = Except.ok v) :
    ∃ rest, v = "// " ++ i.raw ++ "\n" ++ rest := by
  unfold gen_wrap at h
  cases hfi : f i with
  | ok v' =>
    rw [hfi] at h
    injection h with h'
    exact ⟨trim_end v', h'.symm⟩
  | error e =>
    rw [hfi] at h
    cases h

theorem gen_wrap_error_shape (i : Instruction)
    (f : Instruction → Except String String) (e : String)
    (h : gen_wrap i f = Except.error e) :
    ∃ m, e = "#" ++ nat_repr i.id ++ " '" ++ i.raw ++ "': " ++ m := by
  unfold gen_wrap at h
  cases hfi : f i with
  | ok v' => rw [hfi] at h; cases h
  | error e' =>
    rw [hfi] at h
    injection h with h'
    exact ⟨e', h'.symm⟩

theorem gen_wrap_is_ok (i : Instruction)
    (f : Instruction → Except String String) :
    is_ok (gen_wrap i f) = is_ok (f i) := by
  unfold gen_wrap
  cases f i <;> rfl

/-- Reduction of the embedded `?` operator: a present option continues. -/
theorem okOr_some_bind {α β : Type} (v : α) (e : String)
    (f : α → Except String β) : (okOr (some v) e >>= f) = f v := rfl

/-- Reduction of the embedded `?` operator: a missing option aborts. -/
theorem okOr_none_bind {α β : Type} (e : String)
    (f : α → Except String β) :
    (okOr (none : Option α) e >>= f) = Except.error e := rfl

/-- None of the category generators reads the `raw` field. -/
theorem generate_memop_raw_irrel (op : String) (a1 a2 : Option String)
    (r1 r2 f : String) (id : Nat) (fr : Option String) :
    generate_memop ⟨op, a1, a2, r1, f, id, fr⟩ =
      generate_memop ⟨op, a1, a2, r2, f, id, fr⟩ := rfl

theorem generate_2op_raw_irrel (op : String) (a1 a2 : Option String)
    (r1 r2 f : String) (id : Nat) (fr : Option String) :
    generate_2op ⟨op, a1, a2, r1, f, id, fr⟩ =
      generate_2op ⟨op, a1, a2, r2, f, id, fr⟩ := rfl

theorem generate_1op_raw_irrel (op : String) (a1 a2 : Option String)
    (r1 r2 f : String) (id : Nat) (fr : Option String) :
    generate_1op ⟨op, a1, a2, r1, f, id, fr⟩ =
      generate_1op ⟨op, a1, a2, r2, f, id, fr⟩ := rfl

theorem generate_cmp_raw_irrel (op : String) (a1 a2 : Option String)
    (r1 r2 f : String) (id : Nat) (fr : Option String) :
    generate_cmp ⟨op, a1, a2, r1, f, id, fr⟩ =
      generate_cmp ⟨op, a1, a2, r2, f, id, fr⟩ := rfl

theorem generate_branching_raw_irrel (op : String) (a1 a2 : Option String)
    (r1 r2 f : String) (id : Nat) (fr : Option String) :
    generate_branching ⟨op, a1, a2, r1, f, id, fr⟩ =
      generate_branching ⟨op, a1, a2, r2, f, id, fr⟩ := rfl

theorem generate_functions_raw_irrel (op : String) (a1 a2 : Option String)
    (r1 r2 f : String) (id : Nat) (fr : Option String) :
    generate_functions ⟨op, a1, a2, r1, f, id, fr⟩ =
      generate_functions ⟨op, a1, a2, r2, f, id, fr⟩ := rfl

/-- Whether `generate_code` succeeds never depends on the `raw` field: the
tokens past the third live only in `raw` and cannot cause a generation
error. -/
theorem generate_code_is_ok_raw_irrel (i : Instruction) (r : String) :
    is_ok (generate_code { i with raw := r }) = is_ok (generate_code i) := by
  obtain ⟨op, a1, a2, raw, f, id, fr⟩ := i
  show is_ok (generate_code ⟨op, a1, a2, r, f, id, fr⟩) = _
  unfold generate_code
  dsimp only
  split
  all_goals
    first
      | rfl
      | (rw [gen_wrap_is_ok, gen_wrap_is_ok]
         first
           | rw [generate_memop_raw_irrel _ a1 a2 r raw]
           | rw [generate_2op_raw_irrel _ a1 a2 r raw]
           | rw [generate_1op_raw_irrel _ a1 a2 r raw]
           | rw [generate_cmp_raw_irrel _ a1 a2 r raw]
           | rw [generate_branching_raw_irrel _ a1 a2 r raw]
           | rw [generate_functions_raw_irrel _ a1 a2 r raw])

/-- `generate_memop` on `pop constant <v2>`: the guard on the `"constant"`
match arm fails for a pop, so the catch-all `Invalid segment argument` error
is taken. -/
theorem generate_memop_pop_constant (i : Instruction) (v2 : String)
    (hop : i.operation = "pop") (h1 : i.arg1 = some "constant")
    (h2 : i.arg2 = some v2) :
    generate_memop i = Except.error "Invalid segment argument 'constant'" := by
  unfold generate_memop
  rw [hop, h1, h2]
  rfl

/-- `generate_memop` on a pop/push of `constant` with no second argument. -/
theorem generate_memop_pop_constant_no_arg2 (i : Instruction)
    (hop : i.operation = "pop") (h1 : i.arg1 = some "constant")
    (h2 : i.arg2 = none) :
    generate_memop i =
      Except.error "Memory operation instruction requires two parameters" := by
  unfold generate_memop
  rw [hop, h1, h2]
  rfl

/-- `generate_code` on any `pop constant` instruction is an error. -/
theorem generate_code_pop_constant_error (i : Instruction)
    (hop : i.operation = "pop") (h1 : i.arg1 = some "constant") :
    ∃ e, generate_code i = Except.error e := by
  unfold generate_code
  rw [hop]
  cases h2 : i.arg2 with
  | some v2 =>
    refine ⟨err_fmt i "Invalid segment argument 'constant'", ?_⟩
    show gen_wrap i generate_memop = _
    unfold gen_wrap
    rw [generate_memop_pop_constant i v2 hop h1 h2]
  | none =>
    refine ⟨err_fmt i "Memory operation instruction requires two parameters", ?_⟩
    show gen_wrap i generate_memop = _
    unfold gen_wrap
    rw [generate_memop_pop_constant_no_arg2 i hop h1 h2]

/-- When some resolved instruction's generation fails, `translate` returns the
diagnostic list (which contains that instruction's diagnostic). -/
theorem translate_error_of_failure (contents : List (String × String))
    (i : Instruction) (e : String) (hm : i ∈ resolved_instructions contents)
    (he : generate_code i = Except.error e) :
    translate contents =
      Except.error (((resolved_instructions contents).map generate_code).filterMap errOf) ∧
      e ∈ ((resolved_instructions contents).map generate_code).filterMap errOf := by
  have hmem : e ∈ ((resolved_instructions contents).map generate_code).filterMap errOf := by
    rw [List.mem_filterMap]
    exact ⟨generate_code i, List.mem_map_of_mem generate_code hm, by rw [he]; rfl⟩
  refine ⟨?_, hmem⟩
  unfold translate
  rw [split_results_eq]
  cases herr : ((resolved_instructions contents).map generate_code).filterMap errOf with
  | nil => rw [herr] at hmem; cases hmem
  | cons x xs => simp [herr]

/-! ## The claims -/

/-- C1: the claim requires per-module sequential frame resolution — an
instruction preceding the first `function` of its own module resolves to the
global sentinel (never to a function of a different module), and a `function`
instruction's frame is its own name.  Evaluating the code's resolution pass on
a two-module program refutes both parts: module b's `label` instructions,
which precede every `function` of module b, resolve to module a's function
`f`, and module a's `function f 0` instruction itself resolves to the
sentinel `none` instead of `f` (its match arm tests the literal string
`"operation"`, and the fallback searches the flattened cross-module list). -/
theorem set_frame_cross_module_eval :
    (resolved_instructions
        [("a", "function f 0\nlabel x"), ("b", "label y\nlabel z")]).map
      (fun i => (i.file, i.id, i.frame)) =
      [("a", 0, none), ("a", 1, some "f"), ("b", 0, none), ("b", 1, some "f")] := by
  rfl

/-- C2: two comparison instructions in different modules at the same
in-module index generate byte-identical assembly fragments — in particular
identical branch and landing label names — because `generate_cmp` feeds only
the module-local `id` (never the module name) into the comparison template.
This refutes the claim that such a pair always receives distinct labels. -/
theorem cmp_labels_collide_across_modules :
    generate_cmp { operation := "eq", arg1 := none, arg2 := none, raw := "eq",
                   file := "a", id := 0, frame := none } =
      Except.ok (cmp_main_asm 0 "JEQ" 0 0 0 0) ∧
    generate_cmp { operation := "eq", arg1 := none, arg2 := none, raw := "eq",
                   file := "b", id := 0, frame := none } =
      Except.ok (cmp_main_asm 0 "JEQ" 0 0 0 0) :=
  ⟨rfl, rfl⟩

/-- C3: translation is all-or-nothing and exhaustive.  If any instruction
fails, `translate` returns exactly the list of every failing instruction's
diagnostic in program order and produces no assembly; otherwise it returns
the bootstrap fragment followed by every generated fragment in program order,
and every successful fragment begins with the `// <raw>` echo comment of its
source line. -/
theorem translate_all_or_nothing :
    (∀ contents : List (String × String),
      translate contents =
        if ((resolved_instructions contents).map generate_code).filterMap errOf
            = [] then
          Except.ok (init_asm ++
            (((resolved_instructions contents).map generate_code).map okD).foldl
              (fun acc item => acc ++ item ++ "\n\n") "")
        else
          Except.error
            (((resolved_instructions contents).map generate_code).filterMap errOf)) ∧
    (∀ (i : Instruction) (v : String), generate_code i = Except.ok v →
      ∃ rest, v = "// " ++ i.raw ++ "\n" ++ rest) := by
  constructor
  · intro contents
    simp only [translate, split_results_eq]
    cases herr : ((resolved_instructions contents).map generate_code).filterMap
        errOf with
    | nil =>
      rw [filterMap_okOf_of_errOf_nil _ herr]
      simp [herr]
    | cons x xs => simp [herr]
  · intro i v h
    unfold generate_code at h
    split at h
    any_goals exact gen_wrap_ok_shape _ _ _ h
    cases h

/-- C3 witness: on the one-instruction program `add`, translation succeeds
with the bootstrap followed by the fragment, and the fragment generated for
the `add` instruction carries its echo comment. -/
theorem translate_all_or_nothing_witness :
    translate [("m", "add")] =
      (if (((resolved_instructions [("m", "add")]).map generate_code).filterMap
          errOf) = [] then
        Except.ok (init_asm ++
          (((resolved_instructions [("m", "add")]).map generate_code).map
            okD).foldl (fun acc item => acc ++ item ++ "\n\n") "")
      else
        Except.error (((resolved_instructions [("m", "add")]).map
          generate_code).filterMap errOf)) ∧
    ∃ rest, "// add\n@SP\nAM=M-1\nD=M\nA=A-1\nM=M+D" = "// add\n" ++ rest :=
  ⟨translate_all_or_nothing.1 [("m", "add")],
   translate_all_or_nothing.2
     { operation := "add", arg1 := none, arg2 := none, raw := "add",
       file := "m", id := 0, frame := none } _ rfl⟩

/-- C4: the claim says `Instruction::new` fails with a parse error on the
empty line and never yields an instruction with an empty operation token.
Evaluating the code refutes it: Rust's `"".split(" ")` yields one empty item,
so the `ok_or("Unable to parse empty line")` guard never fires and the empty
line parses into an instruction whose operation is `""`. -/
theorem new_empty_line_ok_eval :
    Instruction.new "" 0 "m" =
      Except.ok { operation := "", arg1 := none, arg2 := none, raw := "",
                  file := "m", id := 0, frame := none } := by
  rfl

/-- C5 counterexample: `push local xyz` has a second argument that fails the
u8 parse, yet code generation succeeds and the generated fragment embeds the
unparsed text `xyz` — the segments argument/local/this/that never parse their
offset. -/
theorem segment_offset_unparsed_ok :
    generate_code { operation := "push", arg1 := some "local",
                    arg2 := some "xyz", raw := "push local xyz", file := "m",
                    id := 0, frame := none } =
      Except.ok ("// push local xyz\n" ++
        trim_end (push_segment_asm "LCL" "xyz" ++ push_main_asm)) ∧
    parse_u8 "xyz" = none ∧
    str_contains (push_segment_asm "LCL" "xyz") "xyz" = true :=
  ⟨rfl, rfl, rfl⟩

/-- C5 amended: only the temp and pointer segments parse their offset as an
unsigned 8-bit integer and report an `Invalid 2nd argument` (InvalidArgument)
diagnostic carrying the offending text on parse failure; the
argument/local/this/that and static segments embed the offset text verbatim
and always generate successfully when both arguments are present. -/
theorem offset_parse_amended :
    (∀ (opt : MemOpType) (i : Instruction) (a2 : String),
      i.arg2 = some a2 → parse_u8 a2 = none →
      temp_fmt opt i =
          Except.error ("Invalid 2nd argument '" ++ a2 ++ "' to temp segment") ∧
        pointer_fmt opt i =
          Except.error
            ("Invalid 2nd argument '" ++ a2 ++ "' to pointer segment")) ∧
    (∀ (opt : MemOpType) (i : Instruction) (v1 v2 : String),
      i.arg1 = some v1 → i.arg2 = some v2 →
      (v1 = "argument" ∨ v1 = "local" ∨ v1 = "this" ∨ v1 = "that") →
      is_ok (segment_fmt opt i) = true) ∧
    (∀ (opt : MemOpType) (i : Instruction) (v2 : String),
      i.arg2 = some v2 → is_ok (static_fmt opt i) = true) := by
  refine ⟨?_, ?_, ?_⟩
  · intro opt i a2 h2 hp
    constructor
    · unfold temp_fmt
      rw [h2, okOr_some_bind, hp, okOr_none_bind]
    · unfold pointer_fmt
      rw [h2, okOr_some_bind, hp, okOr_none_bind]
  · rintro opt i v1 v2 h1 h2 (rfl | rfl | rfl | rfl) <;>
      (unfold segment_fmt; rw [h1, okOr_some_bind]; cases opt <;>
        (rw [h2]; rfl))
  · intro opt i v2 h2
    unfold static_fmt
    rw [h2, okOr_some_bind]
    cases opt <;> rfl

/-- C5 witness: at `arg2 = "xyz"` the temp and pointer generators report the
InvalidArgument diagnostics carrying `xyz`, while the local and static
generators succeed on the same unparsable offset. -/
theorem offset_parse_amended_witness :
    (temp_fmt MemOpType.Push
        { operation := "push", arg1 := some "temp", arg2 := some "xyz",
          raw := "push temp xyz", file := "m", id := 0, frame := none } =
        Except.error "Invalid 2nd argument 'xyz' to temp segment" ∧
      pointer_fmt MemOpType.Push
        { operation := "push", arg1 := some "temp", arg2 := some "xyz",
          raw := "push temp xyz", file := "m", id := 0, frame := none } =
        Except.error "Invalid 2nd argument 'xyz' to pointer segment") ∧
    is_ok (segment_fmt MemOpType.Push
      { operation := "push", arg1 := some "local", arg2 := some "xyz",
        raw := "push local xyz", file := "m", id := 0, frame := none }) = true ∧
    is_ok (static_fmt MemOpType.Push
      { operation := "push", arg1 := some "static", arg2 := some "xyz",
        raw := "push static xyz", file := "m", id := 0, frame := none }) = true :=
  ⟨offset_parse_amended.1 MemOpType.Push _ "xyz" rfl rfl,
   offset_parse_amended.2.1 MemOpType.Push _ "local" "xyz" rfl rfl
     (Or.inr (Or.inl rfl)),
   offset_parse_amended.2.2 MemOpType.Push _ "xyz" rfl⟩

/-- C6 counterexample: the diagnostic for `pop constant 3` in a module named
`foo` is `#0 'pop constant 3': Invalid segment argument 'constant'` — it does
not contain the module name `foo` anywhere, refuting the claim that every
diagnostic carries the originating module name. -/
theorem diagnostic_missing_module :
    generate_code { operation := "pop", arg1 := some "constant",
                    arg2 := some "3", raw := "pop constant 3", file := "foo",
                    id := 0, frame := none } =
      Except.error "#0 'pop constant 3': Invalid segment argument 'constant'" ∧
    str_contains "#0 'pop constant 3': Invalid segment argument 'constant'"
      "foo" = false :=
  ⟨rfl, rfl⟩

/-- C6 amended: every diagnostic produced by code generation carries the
in-module index, the original raw line text and a human-readable message, in
the shape `#<index> '<raw>': <message>`; the originating module name is not
part of the diagnostic. -/
theorem diagnostic_shape_amended :
    ∀ (i : Instruction) (e : String), generate_code i = Except.error e →
      ∃ m, e = "#" ++ nat_repr i.id ++ " '" ++ i.raw ++ "': " ++ m := by
  intro i e h
  unfold generate_code at h
  split at h
  any_goals exact gen_wrap_error_shape _ _ _ h
  injection h with h'
  exact ⟨_, h'.symm⟩

/-- C6 witness: the diagnostic for `pop constant 3` at index 0 has the
`#<index> '<raw>': <message>` shape. -/
theorem diagnostic_shape_amended_witness :
    ∃ m, "#0 'pop constant 3': Invalid segment argument 'constant'" =
      "#" ++ nat_repr 0 ++ " '" ++ "pop constant 3" ++ "': " ++ m :=
  diagnostic_shape_amended
    { operation := "pop", arg1 := some "constant", arg2 := some "3",
      raw := "pop constant 3", file := "m", id := 0, frame := none } _ rfl

/-- C7 counterexample: two distinct call sites — `call f 0` in module a and
`call g 0` in module b, both at in-module index 0 and outside any function —
receive the same return-address label `global$ret.0`, refuting the claim that
the return-address label is unique per call site across the whole program. -/
theorem return_labels_collide :
    (resolved_instructions [("a", "call f 0"), ("b", "call g 0")]).map
      (fun i => (i.file, i.operation, call_return_label i)) =
      [("a", "call", "global$ret.0"), ("b", "call", "global$ret.0")] := by
  rfl

/-- C7 amended: the return-address label is the resolved frame (or the
sentinel `global`) followed by `$ret.` and the in-module index.  For two call
sites whose resolved frames agree — e.g. recursive or repeated calls inside
one function — the labels are distinct exactly when the in-module indices are
distinct; call sites in different modules that resolve to the same frame (such
as two top-level calls at the same index) share one label. -/
theorem return_label_amended :
    ∀ i j : Instruction, i.frame.getD "global" = j.frame.getD "global" →
      (call_return_label i = call_return_label j ↔ i.id = j.id) := by
  intro i j h
  unfold call_return_label
  rw [h]
  constructor
  · intro he
    have hd := congrArg String.data he
    rw [data_append, data_append, data_append, data_append] at hd
    have hrepr := List.append_cancel_left hd
    exact nat_repr_inj _ _ (congrArg String.mk hrepr)
  · intro he
    rw [he]

/-- C7 witness: two repeated top-of-module calls at indices 0 and 1 in the
same (global) frame receive labels that are equal iff their indices are. -/
theorem return_label_amended_witness :
    call_return_label
        { operation := "call", arg1 := some "f", arg2 := some "0",
          raw := "call f 0", file := "a", id := 0, frame := none } =
      call_return_label
        { operation := "call", arg1 := some "f", arg2 := some "0",
          raw := "call f 0", file := "a", id := 1, frame := none } ↔
      (0 : Nat) = 1 :=
  return_label_amended _ _ rfl

/-- C8 counterexample: `push temp 8` — an offset outside the claimed window
5..12 (8 + 5 = 13) — is not rejected: generation succeeds and the fragment
addresses register `R13`. -/
theorem temp_offset_out_of_window_ok :
    generate_code { operation := "push", arg1 := some "temp", arg2 := some "8",
                    raw := "push temp 8", file := "m", id := 0, frame := none } =
      Except.ok ("// push temp 8\n" ++
        trim_end (push_direct_asm "R13" ++ push_main_asm)) ∧
    str_contains (push_direct_asm "R13") "R13" = true :=
  ⟨rfl, rfl⟩

/-- C8 amended: every offset that parses as a u8 — including every offset
greater than 7 — is mapped to register `R(offset + 5)` (8-bit wrap-around for
offsets above 250) with no window check; only a second argument that fails
the u8 parse is rejected. -/
theorem temp_offset_amended :
    ∀ (opt : MemOpType) (i : Instruction) (a2 : String) (n : Nat),
      i.arg2 = some a2 → parse_u8 a2 = some n →
      temp_fmt opt i = Except.ok
        (match opt with
          | MemOpType.Push => push_direct_asm ("R" ++ nat_repr ((n + 5) % 256))
          | MemOpType.Pop =>
            pop_direct_full_asm ("R" ++ nat_repr ((n + 5) % 256))) := by
  intro opt i a2 n h2 hp
  unfold temp_fmt
  rw [h2, okOr_some_bind, hp, okOr_some_bind]
  cases opt <;> rfl

/-- C8 witness: `push temp 8` maps to register R13 = R(8 + 5). -/
theorem temp_offset_amended_witness :
    temp_fmt MemOpType.Push
      { operation := "push", arg1 := some "temp", arg2 := some "8",
        raw := "push temp 8", file := "m", id := 0, frame := none } =
      Except.ok (push_direct_asm ("R" ++ nat_repr ((8 + 5) % 256))) :=
  temp_offset_amended MemOpType.Push _ "8" 8 rfl rfl

/-- C9: every `pop` with segment argument `constant` (and an offset) fails
with exactly the one `Invalid segment argument 'constant'` (InvalidSegment)
diagnostic referencing its raw line; any program containing such an
instruction translates to a non-empty diagnostic list and no output; the
one-line program `pop constant 3` yields exactly that one diagnostic. -/
theorem pop_constant_invalid_segment :
    (∀ (i : Instruction) (v2 : String),
      i.operation = "pop" → i.arg1 = some "constant" → i.arg2 = some v2 →
      generate_code i =
        Except.error (err_fmt i "Invalid segment argument 'constant'")) ∧
    (∀ contents : List (String × String),
      (∃ i ∈ resolved_instructions contents,
        i.operation = "pop" ∧ i.arg1 = some "constant") →
      ∃ errs, translate contents = Except.error errs ∧ errs ≠ []) ∧
    translate [("m", "pop constant 3")] =
      Except.error ["#0 'pop constant 3': Invalid segment argument 'constant'"] := by
  refine ⟨?_, ?_, by rfl⟩
  · intro i v2 hop h1 h2
    unfold generate_code
    rw [hop]
    show gen_wrap i generate_memop = _
    unfold gen_wrap
    rw [generate_memop_pop_constant i v2 hop h1 h2]
  · rintro contents ⟨i, hm, hop, h1⟩
    obtain ⟨e, he⟩ := generate_code_pop_constant_error i hop h1
    obtain ⟨ht, hmem⟩ := translate_error_of_failure contents i e hm he
    refine ⟨_, ht, ?_⟩
    intro hnil
    rw [hnil] at hmem
    cases hmem

/-- C9 witness: the concrete instruction `pop constant 3` yields the
InvalidSegment diagnostic, and the one-line program containing it translates
to a non-empty error list. -/
theorem pop_constant_invalid_segment_witness :
    generate_code { operation := "pop", arg1 := some "constant",
                    arg2 := some "3", raw := "pop constant 3", file := "m",
                    id := 0, frame := none } =
      Except.error "#0 'pop constant 3': Invalid segment argument 'constant'" ∧
    ∃ errs, translate [("m", "pop constant 3")] = Except.error errs ∧
      errs ≠ [] := by
  constructor
  · exact pop_constant_invalid_segment.1 _ "3" rfl rfl rfl
  · refine pop_constant_invalid_segment.2.1 [("m", "pop constant 3")] ?_
    have hres : resolved_instructions [("m", "pop constant 3")] =
        [{ operation := "pop", arg1 := some "constant", arg2 := some "3",
           raw := "pop constant 3", file := "m", id := 0, frame := none }] := rfl
    rw [hres]
    exact ⟨_, List.mem_singleton_self _, rfl, rfl⟩

/-- C10: the parser fills `operation`, `arg1`, `arg2` from the first three
space-delimited tokens only and always succeeds; tokens beyond the third do
not populate any argument field (they survive only inside the retained raw
line) and never affect whether code generation succeeds. -/
theorem parser_first_three_tokens :
    (∀ (s : String) (id : Nat) (file : String),
      Instruction.new s id file = Except.ok
        { operation := (tokenize s).headI, arg1 := (tokenize s).get? 1,
          arg2 := (tokenize s).get? 2, raw := s, file := file, id := id,
          frame := none }) ∧
    (∀ (i : Instruction) (r : String),
      is_ok (generate_code { i with raw := r }) = is_ok (generate_code i)) :=
  ⟨Instruction.new_ok, generate_code_is_ok_raw_irrel⟩

end VMTranslator
